import Mathlib

/-!
# Shallow embedding of the reactive observables runtime

This file embeds the reactive-graph engine of `src/unnamed/part_000`
(`root`/`observable`/`computed`/`effect`/`dispose`/`onDispose`/`onError`,
the ambient tracking slots, cycle detection and the error-handler chain)
and settles the frozen claims about it.

Modelling conventions:
* JS values flowing through sources/derivations are modelled by `Val`
  (`undef` = `undefined`, `jsNull` = `null`, `nan` = a non-number result,
  `int` = a number).  User compute bodies are modelled by the small
  expression language `Expr`; errors are `Error` objects carried as their
  message string.
* A JS `Set` is modelled as an `Option (List _)`: `none` is the `null`
  field, `some l` is a `Set` with `l` its elements in insertion order
  (insertion de-duplicates, matching `Set.add`).
* Nodes live in an arena `State.nodes`; a node id is its index.  The
  callable returned by `effect` (the stop function) and the root object
  are arena entries of their own kind, mirroring that in JS they are
  plain functions/objects carrying no `OBSERVABLE` marker.
* The build is modelled with `__DEV__ = true` (the variant the test-suite
  exercises): the call stack, compute stack and cycle detection are live.
* Disposal callbacks and error handlers are opaque: invoking one appends
  an `Event` to `State.events` (and a handler may rethrow a fixed error),
  which is exactly how the test-suite's spies observe them.
* The scheduler is imported from `./scheduler`, a file absent from
  `src/`; the definitions marked `Modelled from the spec:` follow §4.5 of
  the specification (a pending set preserving first-insertion order, a
  synchronous drain, a tick counter, a post-flush hook clearing the
  dev call stack).
-/

namespace Signals

/-- JS values stored in observables: `undefined`, `null`, non-numbers
(`nan`), and numbers (modelled as unbounded integers). -/
inductive Val
  | undef
  | jsNull
  | nan
  | int (n : Int)
deriving DecidableEq

/-- The default dirty predicate `notEqual(a, b) = a !== b` of the source.
JS strict inequality: `NaN !== NaN` is `true`; `undefined !== undefined`
and `null !== null` are `false`. -/
def jsNotEqual : Val → Val → Bool
  | Val.int a, Val.int b => a != b
  | Val.undef, Val.undef => false
  | Val.jsNull, Val.jsNull => false
  | _, _ => true

/-- A custom dirty predicate passable via `options.dirty` that reports
every write as a change. -/
def alwaysDirty : Val → Val → Bool := fun _ _ => true

/-- JS `+` on the modelled values; any non-number operand produces a
non-number (`nan`).  This models the user bodies appearing in the claims,
which only ever add numbers. -/
def jsAdd : Val → Val → Val
  | Val.int a, Val.int b => Val.int (a + b)
  | _, _ => Val.nan

/-- Observable side effects of opaque user callbacks: a disposal callback
`cid` ran, or error handler `hid` ran with an error message. -/
inductive Event
  | cleanup (cid : Nat)
  | handler (hid : Nat) (msg : String)
deriving DecidableEq

/-- An error handler registered with `onError`: it logs its invocation
and, if `throwsMsg = some m`, then throws `Error m` afterwards. -/
structure Handler where
  hid : Nat
  throwsMsg : Option String
deriving DecidableEq

/-- User compute-function bodies: literals, reads of other reactive
callables, JS addition, and `throw Error(msg)`. -/
inductive Expr
  | lit (v : Val)
  | read (nid : Nat)
  | add (a b : Expr)
  | throwE (msg : String)
deriving DecidableEq

/-- The compute body stored on a derivation.  `fn e` is a plain
`computed` body.  `effectFn e cleanup` is the wrapper `effect` builds
around a user effect body: run the body (`e`), and if it returned a
cleanup function (`cleanup = some cid`) and a scope is current, register
the cleanup via `onDispose`; the wrapper itself returns `undefined`. -/
inductive Body
  | fn (e : Expr)
  | effectFn (e : Expr) (cleanup : Option Nat)
deriving DecidableEq

/-- What kind of callable/object an arena entry is: a source
(`observable`), a derivation (`computed`, with its body), the stop
closure returned by `effect` (its invocation disposes `target`), or a
root scope object. -/
inductive NodeKind
  | src
  | comp (b : Body)
  | stopFn (target : Nat)
  | scopeRoot
deriving DecidableEq

/-- One reactive node, the uniform record of `part_000` (fields mirror
the symbol-keyed properties; `errHandlers` is `CONTEXT[ERROR]`, the only
context key the claims exercise). -/
structure Node where
  kind : NodeKind
  value : Val
  dirtyPred : Val → Val → Bool
  fallback : Val
  isInit : Bool
  idStr : String
  observableFlag : Bool
  hasSet : Bool
  dirty : Bool
  disposed : Bool
  scope : Option Nat
  observers : Option (List Nat)
  children : Option (List Nat)
  disposal : Option (List Nat)
  errHandlers : Option (List Handler)

/-- The node an out-of-range arena access yields; its `kind` is `src`
and all sets are absent. -/
def defaultNode : Node :=
  { kind := NodeKind.src, value := Val.undef, dirtyPred := jsNotEqual,
    fallback := Val.undef, isInit := false, idStr := "?",
    observableFlag := false, hasSet := false, dirty := false,
    disposed := false, scope := none, observers := none,
    children := none, disposal := none, errHandlers := none }

/-- Global engine state: the node arena, the ambient tracking slots
(`currentScope`/`currentObserver`), the module-level temporaries
`prevScope`/`prevObserver` used by `compute`, the dev call/compute
stacks, the scheduler's pending queue and tick counter, and the event
log of opaque callback invocations. -/
structure State where
  nodes : List Node
  currentScope : Option Nat
  currentObserver : Option Nat
  prevScope : Option Nat
  prevObserver : Option Nat
  callStack : List Nat
  computeStack : List Nat
  pending : List Nat
  ticks : Nat
  events : List Event

/-- Arena lookup (out-of-range ids yield `defaultNode`). -/
def State.node (s : State) (nid : Nat) : Node :=
  s.nodes.getD nid defaultNode

/-- Update the node at `nid` (a no-op when `nid` is out of range,
matching `List.set`). -/
def upd (s : State) (nid : Nat) (f : Node → Node) : State :=
  { s with nodes := s.nodes.set nid (f (s.node nid)) }

/-- `Set.add`: append if not already present (insertion order kept). -/
def addUnique {α : Type} [DecidableEq α] (l : List α) (x : α) : List α :=
  if x ∈ l then l else l ++ [x]

/-- The state with no nodes and empty ambient slots. -/
def emptyState : State :=
  { nodes := [], currentScope := none, currentObserver := none,
    prevScope := none, prevObserver := none, callStack := [],
    computeStack := [], pending := [], ticks := 0, events := [] }

/-- Modelled from the spec: `scheduler.enqueue` of the missing
`./scheduler` module — add the node to the pending set preserving
first-insertion order (at most one entry per node). -/
def enqueue (s : State) (nid : Nat) : State :=
  if nid ∈ s.pending then s else { s with pending := s.pending ++ [nid] }

/-- Dev-build bookkeeping: `callStack.push(node)` at the top of every
observable/computed invocation. -/
def pushCall (s : State) (nid : Nat) : State :=
  { s with callStack := s.callStack ++ [nid] }

/-- Dependency registration at read time: if there is a current
observer, add it to the read node's observers set (creating the set if
absent).  `part_000` performs no disposed check here. -/
def trackObserver (s : State) (nid : Nat) : State :=
  match s.currentObserver with
  | none => s
  | some o =>
    upd s nid (fun nd => { nd with observers := some (addUnique (nd.observers.getD []) o) })

/-- `adopt`: add a freshly created node to the current scope's children
set (creating the set if absent). -/
def adopt (s : State) (sc nid : Nat) : State :=
  upd s sc (fun nd => { nd with children := some (addUnique (nd.children.getD []) nid) })

/-- Run one opaque disposal callback: record the invocation. -/
def logCleanup (s : State) (cid : Nat) : State :=
  { s with events := s.events ++ [Event.cleanup cid] }

/-- Record one error-handler invocation. -/
def logHandler (s : State) (hid : Nat) (msg : String) : State :=
  { s with events := s.events ++ [Event.handler hid msg] }

/-- One step of `notify`'s loop over an observers set: a disposed
observer is lazily pruned from the set; otherwise the observer is marked
dirty and enqueued to the scheduler. -/
def notifyStep (owner : Nat) (st : State) (o : Nat) : State :=
  if (st.node o).disposed then
    upd st owner (fun nd => { nd with observers := nd.observers.map (fun l => l.erase o) })
  else
    enqueue (upd st o (fun nd => { nd with dirty := true })) o

/-- `notify(observers)` of `part_000` applied to `owner`'s observers
set. -/
def notify (s : State) (owner : Nat) : State :=
  ((s.node owner).observers.getD []).foldl (notifyStep owner) s

/-- `$observable.set(nextValue)`: when the source is not disposed and
the dirty predicate reports a change, store the value and, if the
observers set is non-empty, notify it. -/
def setObservable (s : State) (nid : Nat) (nv : Val) : State :=
  let nd := s.node nid
  if !nd.disposed && nd.dirtyPred nd.value nv then
    let s1 := upd s nid (fun n => { n with value := nv })
    if ((s1.node nid).observers.getD []).isEmpty then s1 else notify s1 nid
  else s

/-- `dispose(fn)` of `part_000`: null the children set first and dispose
each child (so children do not attempt removing themselves), run and
null the disposal set, remove the node from its scope parent's children
and null the scope pointer, then null observers and context and set the
disposed flag.  `fuel` bounds the recursion depth (the scope forest of
any reachable state is finite). -/
def dispose : Nat → State → Nat → State
  | 0, s, _ => s
  | fuel+1, s, nid =>
    let s1 :=
      match (s.node nid).children with
      | some cs =>
        cs.foldl (fun st c => dispose fuel st c)
          (upd s nid (fun nd => { nd with children := none }))
      | none => s
    let s2 :=
      match (s1.node nid).disposal with
      | some ds => upd (ds.foldl logCleanup s1) nid (fun nd => { nd with disposal := none })
      | none => s1
    let s3 :=
      match (s2.node nid).scope with
      | some sc =>
        upd (upd s2 sc (fun nd => { nd with children := nd.children.map (fun l => l.erase nid) }))
          nid (fun nd => { nd with scope := none })
      | none => s2
    upd s3 nid (fun nd => { nd with observers := none, errHandlers := none, disposed := true })

/-- The child-disposal phase of `dispose` in isolation: null the
children set first, then dispose each child of the captured snapshot
with the given fuel. -/
def childrenPhase (fuel : Nat) (s : State) (nid : Nat) : State :=
  match (s.node nid).children with
  | some cs =>
    cs.foldl (fun st c => dispose fuel st c)
      (upd s nid (fun nd => { nd with children := none }))
  | none => s

/-- The disposal-callback phase of `dispose` in isolation: run every
callback, then null the set. -/
def disposalPhase (s : State) (nid : Nat) : State :=
  match (s.node nid).disposal with
  | some ds => upd (ds.foldl logCleanup s) nid (fun nd => { nd with disposal := none })
  | none => s

/-- The scope-removal phase of `dispose` in isolation: delete the node
from its scope parent's children and null the scope pointer. -/
def scopePhase (s : State) (nid : Nat) : State :=
  match (s.node nid).scope with
  | some sc =>
    upd (upd s sc (fun nd => { nd with children := nd.children.map (fun l => l.erase nid) }))
      nid (fun nd => { nd with scope := none })
  | none => s

/-- The housekeeping a dirty derivation performs before re-running its
body: dispose children built by the previous run (then clear the set),
run buffered disposal callbacks (then clear the set), and clear the
buffered error handlers — each step only when the respective set is
non-empty, mirroring the `?.size` guards. -/
def prepComputed (fuel : Nat) (s : State) (nid : Nat) : State :=
  let s1 :=
    if ((s.node nid).children.getD []).isEmpty then s
    else
      upd (((s.node nid).children.getD []).foldl (fun st c => dispose fuel st c) s) nid
        (fun nd => { nd with children := some [] })
  let s2 :=
    if ((s1.node nid).disposal.getD []).isEmpty then s1
    else
      upd (((s1.node nid).disposal.getD []).foldl logCleanup s1) nid
        (fun nd => { nd with disposal := some [] })
  if ((s2.node nid).errHandlers.getD []).isEmpty then s2
  else upd s2 nid (fun nd => { nd with errHandlers := some [] })

/-- The handle `onDispose` returns: `NOOP` (falsy input), the raw
callback itself (no current scope), or a closure that runs the callback
and removes it from the scope's disposal set. -/
inductive DisposeHandle
  | noopH
  | rawFn (cid : Nat)
  | removing (cid : Nat) (sc : Nat)
deriving DecidableEq

/-- `onDispose(dispose)`: without a callback or a current scope, nothing
is registered and the callback (or `NOOP`) is returned unchanged;
otherwise the callback is added to the current scope's disposal set. -/
def onDispose (s : State) (cb : Option Nat) : DisposeHandle × State :=
  match cb, s.currentScope with
  | none, _ => (DisposeHandle.noopH, s)
  | some c, none => (DisposeHandle.rawFn c, s)
  | some c, some sc =>
    (DisposeHandle.removing c sc,
      upd s sc (fun nd => { nd with disposal := some (addUnique (nd.disposal.getD []) c) }))

/-- `onError(handler)`: register the handler under the reserved `ERROR`
context key of the current scope (no-op without a scope). -/
def onError (s : State) (h : Handler) : State :=
  match s.currentScope with
  | none => s
  | some sc =>
    upd s sc (fun nd => { nd with errHandlers := some (addUnique (nd.errHandlers.getD []) h) })

/-- `lookup(node, ERROR)`: walk the scope chain from `node` upwards and
return the first defined `ERROR` context entry (which may be an empty,
cleared set). -/
def lookupErr : Nat → State → Option Nat → Option (List Handler)
  | 0, _, _ => none
  | _, _, none => none
  | fuel+1, s, some n =>
    match (s.node n).errHandlers with
    | some hs => some hs
    | none => lookupErr fuel s (s.node n).scope

/-- Invoke a handler set in order with the (already `Error`-coerced)
message; stop at the first handler that itself throws, returning its
error. -/
def runHandlers (s : State) : List Handler → String → Option String × State
  | [], _ => (none, s)
  | h :: t, msg =>
    let s1 := logHandler s h.hid msg
    match h.throwsMsg with
    | some m => (some m, s1)
    | none => runHandlers s1 t msg

/-- `handleError(node, error)` of `part_000`: look the `ERROR` entry up
along the scope chain; with no entry anywhere, rethrow to the caller
(`some msg` result).  Otherwise run all its handlers; if one of them
throws, continue with `handleError(node[SCOPE], error)` — from the scope
parent of the node this call started at.  All modelled errors are
`Error` instances, so the coercion is the identity. -/
def handleError : Nat → State → Option Nat → String → Option String × State
  | 0, s, _, msg => (some msg, s)
  | fuel+1, s, node, msg =>
    match lookupErr (fuel+1) s node with
    | none => (some msg, s)
    | some hs =>
      match runHandlers s hs msg with
      | (none, s1) => (none, s1)
      | (some m, s1) =>
        handleError fuel s1 (match node with
          | some n => (s1.node n).scope
          | none => none) m

/-- The entry half of `compute(scope, node, observer)`: save both
ambient slots into the module-level temporaries, install the new ones,
and (dev) push a non-null scope onto the compute stack. -/
def computeEnter (s : State) (scope obs : Option Nat) : State :=
  { s with prevScope := s.currentScope, prevObserver := s.currentObserver,
           currentScope := scope, currentObserver := obs,
           computeStack :=
             match scope with
             | some n => s.computeStack ++ [n]
             | none => s.computeStack }

/-- The `finally` half of `compute`: restore both slots from the
module-level temporaries (which a nested `compute` call may have
clobbered and nulled), null the temporaries, and (dev) pop the compute
stack. -/
def computeExit (s : State) : State :=
  { s with currentScope := s.prevScope, currentObserver := s.prevObserver,
           prevScope := none, prevObserver := none,
           computeStack := s.computeStack.dropLast }

/-- `compute(scope, node, observer)` as a whole, for an arbitrary body:
enter, run the body synchronously, exit on every path (the body's result
— normal or thrown — passes through unchanged). -/
def computeF (s : State) (scope obs : Option Nat)
    (body : State → Except String Val × State) : Except String Val × State :=
  let p := body (computeEnter s scope obs)
  (p.1, computeExit p.2)

/-- `' --> '`-join of the call-stack trail for the cycle error. -/
def joinArrow : List String → String
  | [] => ""
  | [x] => x
  | x :: y :: t => x ++ " --> " ++ joinArrow (y :: t)

/-- The message of the cyclic-dependency error, built from the dev call
stack at the moment of the re-entrant invocation. -/
def cyclicMsg (s : State) : String :=
  "cyclic dependency detected\n\n" ++
    joinArrow (s.callStack.map (fun n => (s.node n).idStr)) ++ "\n"

/-- The tail of a successful derivation re-run: leave the `compute`
frame, compare old and new value with the dirty predicate; on a change
store the value and (if the observers set is non-empty) notify it; then
mark the derivation initialised and clear its dirty flag, and return the
current value. -/
def finishCompute (s2 : State) (nid : Nat) (nv : Val) : Except String Val × State :=
  let s3 := computeExit s2
  let nd := s3.node nid
  let s4 :=
    if nd.dirtyPred nd.value nv then
      let s4a := upd s3 nid (fun n => { n with value := nv })
      if ((s4a.node nid).observers.getD []).isEmpty then s4a else notify s4a nid
    else s3
  let s5 := upd s4 nid (fun n => { n with isInit := true, dirty := false })
  (Except.ok (s5.node nid).value, s5)

/-- The tail of a failed derivation re-run: leave the `compute` frame,
route the error through `handleError`; if it rethrows, the error escapes
the read; otherwise return the fallback on the very first run and the
previous value afterwards.  The dirty flag stays set. -/
def failCompute (fuel : Nat) (s2 : State) (nid : Nat) (msg : String) :
    Except String Val × State :=
  let s3 := computeExit s2
  match handleError fuel s3 (some nid) msg with
  | (some e, s4) => (Except.error e, s4)
  | (none, s4) =>
    let nd := s4.node nid
    (Except.ok (if nd.isInit then nd.value else nd.fallback), s4)

/-- The three mutually recursive activities of the engine: evaluate a
user expression, invoke a callable node (a read, or the stop closure),
run a compute body. -/
inductive Call
  | ce (e : Expr)
  | rn (nid : Nat)
  | rb (b : Body)

/-- The recursive core of the engine, fuelled.  `Call.rn nid` is the
invocation of node `nid`: a source read pushes the call stack, registers
the current observer and returns the current value; a `computed` read
first performs the cycle check against the compute stack (throwing
synchronously, before any other step, when re-entered), then registers
the observer, and — when dirty and not disposed — re-runs its body under
`compute(self, fn, self)` via `prepComputed`/`computeEnter` and
`finishCompute`/`failCompute`; invoking a stop closure disposes its
effect. -/
def engine : Nat → State → Call → Except String Val × State
  | 0, s, _ => (Except.error "out of fuel", s)
  | fuel+1, s, Call.ce e =>
    match e with
    | Expr.lit v => (Except.ok v, s)
    | Expr.read nid => engine fuel s (Call.rn nid)
    | Expr.add a b =>
      match engine fuel s (Call.ce a) with
      | (Except.error er, s1) => (Except.error er, s1)
      | (Except.ok va, s1) =>
        match engine fuel s1 (Call.ce b) with
        | (Except.error er, s2) => (Except.error er, s2)
        | (Except.ok vb, s2) => (Except.ok (jsAdd va vb), s2)
    | Expr.throwE m => (Except.error m, s)
  | fuel+1, s, Call.rb b =>
    match b with
    | Body.fn e => engine fuel s (Call.ce e)
    | Body.effectFn e cl =>
      match engine fuel s (Call.ce e) with
      | (Except.error er, s1) => (Except.error er, s1)
      | (Except.ok _, s1) =>
        match cl, s1.currentScope with
        | some c, some _ => (Except.ok Val.undef, (onDispose s1 (some c)).2)
        | _, _ => (Except.ok Val.undef, s1)
  | fuel+1, s, Call.rn nid =>
    match (s.node nid).kind with
    | NodeKind.src =>
      (Except.ok (s.node nid).value, trackObserver (pushCall s nid) nid)
    | NodeKind.scopeRoot => (Except.ok Val.undef, s)
    | NodeKind.stopFn t => (Except.ok Val.undef, dispose fuel s t)
    | NodeKind.comp b =>
      if s.computeStack.contains nid then (Except.error (cyclicMsg s), s)
      else
        let s1 := trackObserver (pushCall s nid) nid
        let nd := s1.node nid
        if nd.dirty && !nd.disposed then
          match engine fuel (computeEnter (prepComputed fuel s1 nid) (some nid) (some nid))
              (Call.rb b) with
          | (Except.ok nv, s2) => finishCompute s2 nid nv
          | (Except.error er, s2) => failCompute fuel s2 nid er
        else (Except.ok nd.value, s1)

/-- Modelled from the spec: the synchronous drain loop of the missing
scheduler's `flush` — while the pending set is non-empty, dequeue the
next node in insertion order and invoke it as a read; nodes enqueued
during the drain are processed in the same flush; an unhandled error
escapes to the flush caller. -/
def drain : Nat → State → Option String × State
  | 0, s => (some "out of fuel", s)
  | fuel+1, s =>
    match s.pending with
    | [] => (none, s)
    | n :: rest =>
      match engine fuel { s with pending := rest } (Call.rn n) with
      | (Except.error e, s1) => (some e, s1)
      | (Except.ok _, s1) => drain fuel s1

/-- Modelled from the spec: the missing scheduler's `flush` — increment
the tick counter at the start, drain synchronously, and afterwards run
the registered `onFlush` hook, which in the dev build resets the call
stack. -/
def flush (fuel : Nat) (s : State) : Option String × State :=
  match drain fuel { s with ticks := s.ticks + 1 } with
  | (none, s1) => (none, { s1 with callStack := [] })
  | (some e, s1) => (some e, s1)

/-- `observable(initialValue, options)`: allocate a source node marked
observable and writable, owned by the current scope (and adopted into
its children when one is present). -/
def mkObservable (s : State) (v : Val) (pred : Val → Val → Bool) (id : String) :
    Nat × State :=
  let nid := s.nodes.length
  let nd : Node :=
    { kind := NodeKind.src, value := v, dirtyPred := pred, fallback := Val.undef,
      isInit := false, idStr := id, observableFlag := true, hasSet := true,
      dirty := false, disposed := false, scope := s.currentScope,
      observers := none, children := none, disposal := none, errHandlers := none }
  let s1 := { s with nodes := s.nodes ++ [nd] }
  (nid,
    match s.currentScope with
    | some sc => adopt s1 sc nid
    | none => s1)

/-- `computed(fn, options)`: allocate a derivation node, initially
dirty, marked observable but not writable, owned by the current
scope. -/
def mkComputed (s : State) (b : Body) (pred : Val → Val → Bool) (fallback : Val)
    (id : String) : Nat × State :=
  let nid := s.nodes.length
  let nd : Node :=
    { kind := NodeKind.comp b, value := Val.undef, dirtyPred := pred,
      fallback := fallback, isInit := false, idStr := id,
      observableFlag := true, hasSet := false, dirty := true, disposed := false,
      scope := s.currentScope, observers := none, children := none,
      disposal := none, errHandlers := none }
  let s1 := { s with nodes := s.nodes ++ [nd] }
  (nid,
    match s.currentScope with
    | some sc => adopt s1 sc nid
    | none => s1)

/-- The stop closure `() => dispose($effect)` returned by `effect`: a
fresh plain function. No `OBSERVABLE` marker, no `set`, no scope. -/
def stopNode (target : Nat) : Node :=
  { kind := NodeKind.stopFn target, value := Val.undef, dirtyPred := jsNotEqual,
    fallback := Val.undef, isInit := false, idStr := "", observableFlag := false,
    hasSet := false, dirty := false, disposed := false, scope := none,
    observers := none, children := none, disposal := none, errHandlers := none }

/-- `effect(fn, options)`: build a `computed` around the effect wrapper
body (in dev with id and `fallback: null`), invoke it once immediately
(priming; an error thrown there escapes the `effect` call), and return
the ids of the effect node and of the freshly allocated stop closure. -/
def mkEffect (fuel : Nat) (s : State) (e : Expr) (cleanup : Option Nat) (id : String) :
    Except String (Nat × Nat) × State :=
  let p := mkComputed s (Body.effectFn e cleanup) jsNotEqual Val.jsNull id
  match engine fuel p.2 (Call.rn p.1) with
  | (Except.error er, s2) => (Except.error er, s2)
  | (Except.ok _, s2) =>
    (Except.ok (p.1, s2.nodes.length), { s2 with nodes := s2.nodes ++ [stopNode p.1] })

/-- `isObservable(fn) = !!fn?.[OBSERVABLE]`. -/
def isObservable (s : State) (nid : Nat) : Bool :=
  (s.node nid).observableFlag

/-- `isSubject(fn) = isObservable(fn) && 'set' in fn`. -/
def isSubject (s : State) (nid : Nat) : Bool :=
  isObservable s nid && (s.node nid).hasSet

/-- The scope chain of a node as a list, outermost last (a spec-side
view of the walk `lookup` performs). -/
def scopeChain : Nat → State → Option Nat → List Nat
  | 0, _, _ => []
  | _, _, none => []
  | fuel+1, s, some n => n :: scopeChain fuel s (s.node n).scope

/-! ## Concrete scenario states used by the claims -/

/-- C1 scenario: `$a = source(10)` at top level. -/
def c1A : Nat × State := mkObservable emptyState (Val.int 10) jsNotEqual "a"

/-- C1 scenario: `$b = source(10)`. -/
def c1B : Nat × State := mkObservable c1A.2 (Val.int 10) jsNotEqual "b"

/-- C1 scenario: `$c = computed(() => $a() + $b())`. -/
def c1C : Nat × State :=
  mkComputed c1B.2 (Body.fn (Expr.add (Expr.read 0) (Expr.read 1))) jsNotEqual Val.undef "c"

/-- C1 scenario: the first read `$c()`. -/
def c1FirstRead : Except String Val × State := engine 50 c1C.2 (Call.rn 2)

/-- C1 scenario: `$a.set(20)` after the first read. -/
def c1AfterSet : State := setObservable c1FirstRead.2 0 (Val.int 20)

/-- C1 scenario: the synchronous second read `$c()`, with no flush in
between. -/
def c1SecondRead : Except String Val × State := engine 50 c1AfterSet (Call.rn 2)

/-- C4 scenario: derivation `n` whose body throws `Error("boom")`,
scoped under `p`. -/
def c4nNode : Node :=
  { kind := NodeKind.comp (Body.fn (Expr.throwE "boom")), value := Val.undef,
    dirtyPred := jsNotEqual, fallback := Val.undef, isInit := false, idStr := "n",
    observableFlag := true, hasSet := false, dirty := true, disposed := false,
    scope := some 1, observers := none, children := none, disposal := none,
    errHandlers := none }

/-- C4 scenario: root scope `p` with one registered error handler
(id 7) that itself throws `Error("handler-boom")`. -/
def c4pNode : Node :=
  { kind := NodeKind.scopeRoot, value := Val.undef, dirtyPred := jsNotEqual,
    fallback := Val.undef, isInit := false, idStr := "p", observableFlag := false,
    hasSet := false, dirty := false, disposed := false, scope := none,
    observers := none, children := none, disposal := none,
    errHandlers := some [{ hid := 7, throwsMsg := some "handler-boom" }] }

/-- C4 scenario state: `n` (id 0) under `p` (id 1), nothing pending. -/
def c4state : State :=
  { nodes := [c4nNode, c4pNode], currentScope := none, currentObserver := none,
    prevScope := none, prevObserver := none, callStack := [], computeStack := [],
    pending := [], ticks := 0, events := [] }

/-- C4 scenario: the read of `n` that triggers the throwing recompute. -/
def c4run : Except String Val × State := engine 50 c4state (Call.rn 0)

/-- C4 witness scenario: a single node with no handlers anywhere in its
scope chain. -/
def c4wit : State :=
  { nodes := [{ c4nNode with scope := none }], currentScope := none,
    currentObserver := none, prevScope := none, prevObserver := none,
    callStack := [], computeStack := [], pending := [], ticks := 0, events := [] }

/-- C5 scenario: `$a = source(5)` at top level. -/
def c5A : Nat × State := mkObservable emptyState (Val.int 5) jsNotEqual "a"

/-- C5 scenario: `$c = computed(() => $a())`. -/
def c5C : Nat × State := mkComputed c5A.2 (Body.fn (Expr.read 0)) jsNotEqual Val.undef "c"

/-- C5 scenario: `dispose($a)`. -/
def c5Disposed : State := dispose 50 c5C.2 0

/-- C5 scenario: the first read `$c()` after `$a` was disposed — a read
of the disposed `$a` inside a tracked execution. -/
def c5Read : Except String Val × State := engine 50 c5Disposed (Call.rn 1)

/-- C6 scenario: the outer root scope node (children filled in by
adoption). -/
def c6rootNode : Node :=
  { kind := NodeKind.scopeRoot, value := Val.undef, dirtyPred := jsNotEqual,
    fallback := Val.undef, isInit := false, idStr := "root", observableFlag := false,
    hasSet := false, dirty := false, disposed := false, scope := none,
    observers := none, children := some [1, 2], disposal := none, errHandlers := none }

/-- C6 scenario: the source `$a` (custom `dirty` option reporting every
write as a change) after the effect primed: observed by the effect. -/
def c6aNode : Node :=
  { kind := NodeKind.src, value := Val.int 1, dirtyPred := alwaysDirty,
    fallback := Val.undef, isInit := false, idStr := "a", observableFlag := true,
    hasSet := true, dirty := false, disposed := false, scope := some 0,
    observers := some [2], children := none, disposal := none, errHandlers := none }

/-- C6 scenario: the effect node after priming: clean, initialised, with
the returned cleanup (id 99) registered in its own disposal set. -/
def c6effNode : Node :=
  { kind := NodeKind.comp (Body.effectFn (Expr.read 1) (some 99)), value := Val.undef,
    dirtyPred := jsNotEqual, fallback := Val.jsNull, isInit := true, idStr := "eff",
    observableFlag := true, hasSet := false, dirty := false, disposed := false,
    scope := some 0, observers := none, children := none, disposal := some [99],
    errHandlers := none }

/-- C6 scenario: the closed form of the state after `k` write/flush
rounds — only the event log, call stack and tick counter vary. -/
def mkC6 (ev : List Event) (cs : List Nat) (t : Nat) : State :=
  { nodes := [c6rootNode, c6aNode, c6effNode, stopNode 2], currentScope := some 0,
    currentObserver := none, prevScope := none, prevObserver := none,
    callStack := cs, computeStack := [], pending := [], ticks := t, events := ev }

/-- C6 scenario: the state inside the root before `$a` and the effect
are created. -/
def c6start : State :=
  { nodes := [{ c6rootNode with children := none }], currentScope := some 0,
    currentObserver := none, prevScope := none, prevObserver := none,
    callStack := [], computeStack := [], pending := [], ticks := 0, events := [] }

/-- C6 scenario: create `$a`, then
`stop = effect(() => { $a(); return cleanup; })` (primed once). -/
def c6s0 : State :=
  (mkEffect 50 (mkObservable c6start (Val.int 1) alwaysDirty "a").2
    (Expr.read 1) (some 99) "eff").2

/-- C6 scenario: `k` rounds of `$a.set(...); tick()` after priming. -/
def c6iter : Nat → State
  | 0 => c6s0
  | k+1 => (flush 10 (setObservable (c6iter k) 1 (Val.int 1))).2

/-- C6 scenario: the call-stack contents after `k` rounds (the post-flush
hook clears it on every flush). -/
def c6cs : Nat → List Nat
  | 0 => [2, 1]
  | _+1 => []

/-- C6 scenario: invoke the stop function after `n` rounds. -/
def c6stop (n : Nat) : State := (engine 10 (c6iter n) (Call.rn 3)).2

/-- C6 scenario: the state right after `$a.set(...)` in a round — the
effect is marked dirty and enqueued; nothing else changed. -/
def c6mid (ev : List Event) (cs : List Nat) (t : Nat) : State :=
  { nodes := [c6rootNode, c6aNode, { c6effNode with dirty := true }, stopNode 2],
    currentScope := some 0, currentObserver := none, prevScope := none,
    prevObserver := none, callStack := cs, computeStack := [], pending := [2],
    ticks := t, events := ev }

/-- How many times disposal callback `c` has run according to the event
log. -/
def countCleanup (evs : List Event) (c : Nat) : Nat :=
  evs.countP (fun e => decide (e = Event.cleanup c))

/-- C7 scenario: an ambient state whose tracking slots hold `some 5` /
`some 6` before `compute` is entered. -/
def c7start : State :=
  { nodes := [], currentScope := some 5, currentObserver := some 6,
    prevScope := none, prevObserver := none, callStack := [], computeStack := [],
    pending := [], ticks := 0, events := [] }

/-- C7 scenario: a `compute` call whose body itself calls `compute` —
the nested call clobbers the module-level `prevScope`/`prevObserver`
temporaries. -/
def c7run : Except String Val × State :=
  computeF c7start (some 1) (some 1) (fun st =>
    computeF st (some 2) (some 2) (fun st2 => (Except.ok Val.undef, st2)))

/-- C8 witness scenario: a disposed source holding `3`. -/
def c8wit : State :=
  { nodes := [{ defaultNode with value := Val.int 3, observableFlag := true,
                                 hasSet := true, disposed := true }],
    currentScope := none, currentObserver := none, prevScope := none,
    prevObserver := none, callStack := [], computeStack := [], pending := [],
    ticks := 0, events := [] }

/-- C9 witness scenario: `effect(() => {})` at top level. -/
def c9prog : Except String (Nat × Nat) × State :=
  mkEffect 50 emptyState (Expr.lit Val.undef) none "eff"

/-- C2 witness scenario: the observer derivation (id 1). -/
def c2witObs : Node :=
  { kind := NodeKind.comp (Body.fn (Expr.lit (Val.int 0))), value := Val.undef,
    dirtyPred := jsNotEqual, fallback := Val.undef, isInit := false, idStr := "o",
    observableFlag := true, hasSet := false, dirty := false, disposed := false,
    scope := none, observers := none, children := none, disposal := none,
    errHandlers := none }

/-- C2 witness scenario: a dirty derivation (id 0) whose body yields `7`
and whose observers set holds the derivation of id 1. -/
def c2witNode : Node :=
  { c2witObs with kind := NodeKind.comp (Body.fn (Expr.lit (Val.int 7))),
                  dirty := true, observers := some [1], idStr := "c" }

/-- C2 witness scenario state. -/
def c2wit : State :=
  { nodes := [c2witNode, c2witObs], currentScope := none, currentObserver := none,
    prevScope := none, prevObserver := none, callStack := [], computeStack := [],
    pending := [], ticks := 0, events := [] }

/-- C5 witness scenario: a disposed source about to be read while node 1
is the current observer. -/
def c5wit : State :=
  { nodes := [{ defaultNode with value := Val.int 3, observableFlag := true,
                                 hasSet := true, disposed := true }],
    currentScope := none, currentObserver := some 1, prevScope := none,
    prevObserver := none, callStack := [], computeStack := [], pending := [],
    ticks := 0, events := [] }

/-- C3 witness scenario: a derivation (id 0) that is already on the
compute stack when it is invoked again. -/
def c3wit : State :=
  { nodes := [{ c4nNode with scope := none }], currentScope := none,
    currentObserver := none, prevScope := none, prevObserver := none,
    callStack := [0], computeStack := [0], pending := [], ticks := 0, events := [] }

/-! ## General-purpose lemmas -/

/-- Reading the slot just appended at the end of the arena. -/
theorem getD_concat (l : List Node) (a d : Node) : (l ++ [a]).getD l.length d = a := by
  induction l with
  | nil => rfl
  | cons x t ih => simp [List.getD]

/-- `getD` after a positional `set`. -/
theorem getD_set (l : List Node) (i j : Nat) (a d : Node) :
    (l.set i a).getD j d = if i = j ∧ i < l.length then a else l.getD j d := by
  induction l generalizing i j with
  | nil => simp [List.getD]
  | cons x t ih =>
    cases i with
    | zero =>
      cases j with
      | zero => simp [List.getD]
      | succ j => simp [List.getD]
    | succ i =>
      cases j with
      | zero => simp [List.getD]
      | succ j => simpa [List.getD, Nat.succ_lt_succ_iff] using ih i j

/-- Node lookup after a node update. -/
theorem node_upd (s : State) (m n : Nat) (g : Node → Node) :
    (upd s m g).node n = if m = n ∧ m < s.nodes.length then g (s.node m) else s.node n := by
  show (s.nodes.set m (g (s.node m))).getD n defaultNode = _
  rw [getD_set]
  rfl

/-- A node update leaves any projection alone that its function does not
touch. -/
theorem node_upd_field {α : Type} (p : Node → α) (s : State) (m n : Nat) (g : Node → Node)
    (hg : ∀ nd, p (g nd) = p nd) : p ((upd s m g).node n) = p (s.node n) := by
  rw [node_upd]; split
  · next h => rw [hg, h.1]
  · rfl

/-- `upd` does not change the arena size. -/
theorem upd_length (s : State) (m : Nat) (g : Node → Node) :
    (upd s m g).nodes.length = s.nodes.length := by
  simp [upd]

/-- `computeExit` does not change the arena. -/
theorem computeExit_node (s : State) (n : Nat) : (computeExit s).node n = s.node n := rfl

/-- `logCleanup` does not change the arena. -/
theorem logCleanup_node (s : State) (c n : Nat) : (logCleanup s c).node n = s.node n := rfl

/-- `enqueue` does not change the arena. -/
theorem enqueue_node (s : State) (o n : Nat) : (enqueue s o).node n = s.node n := by
  unfold enqueue; split <;> rfl

/-- A fold preserves any state predicate its step preserves. -/
theorem foldl_pres {β : Type} (P : State → Prop) (g : State → β → State)
    (hg : ∀ st b, P st → P (g st b)) :
    ∀ (l : List β) (st : State), P st → P (l.foldl g st) := by
  intro l
  induction l with
  | nil => intro st h; exact h
  | cons b t ih => intro st h; exact ih _ (hg st b h)

/-- A fold whose step preserves the arena size preserves it overall. -/
theorem foldl_length {β : Type} (g : State → β → State)
    (hg : ∀ st b, (g st b).nodes.length = st.nodes.length) :
    ∀ (l : List β) (st : State), (l.foldl g st).nodes.length = st.nodes.length := by
  intro l
  induction l with
  | nil => intro st; rfl
  | cons b t ih => intro st; rw [List.foldl_cons, ih, hg]

/-! ## Lemmas about `dispose` -/

/-- `dispose` at positive fuel is the three phases followed by the final
field resets. -/
theorem dispose_succ (f : Nat) (s : State) (nid : Nat) :
    dispose (f + 1) s nid =
      upd (scopePhase (disposalPhase (childrenPhase f s nid) nid) nid) nid
        (fun nd => { nd with observers := none, errHandlers := none, disposed := true }) := rfl

/-- `scopePhase` does not change the arena size. -/
theorem scopePhase_length (s : State) (c : Nat) :
    (scopePhase s c).nodes.length = s.nodes.length := by
  unfold scopePhase; split
  · rw [upd_length, upd_length]
  · rfl

/-- `disposalPhase` does not change the arena size. -/
theorem disposalPhase_length (s : State) (c : Nat) :
    (disposalPhase s c).nodes.length = s.nodes.length := by
  unfold disposalPhase; split
  · rw [upd_length]
    exact foldl_length logCleanup (fun st b => rfl) _ _
  · rfl

/-- `dispose` and its child phase do not change the arena size. -/
theorem dispose_length (f : Nat) : ∀ (s : State) (c : Nat),
    (dispose f s c).nodes.length = s.nodes.length := by
  induction f with
  | zero => intro s c; rfl
  | succ f ih =>
    intro s c
    rw [dispose_succ, upd_length, scopePhase_length, disposalPhase_length]
    unfold childrenPhase; split
    · rw [foldl_length (fun st c2 => dispose f st c2) (fun st b => ih st b), upd_length]
    · rfl

/-- An update whose function keeps an absent set absent preserves
`p = none` of every node, for any set-valued projection `p`. -/
theorem upd_pres_none (p : Node → Option (List Nat)) (st : State) (m : Nat) (g : Node → Node)
    (hg : ∀ nd, p nd = none → p (g nd) = none) (n : Nat)
    (h : p (st.node n) = none) : p ((upd st m g).node n) = none := by
  rw [node_upd]; split
  · next hc => exact hg _ (hc.1 ▸ h)
  · exact h

/-- `disposalPhase` preserves `children = none` of every node. -/
theorem disposalPhase_children_none (s : State) (c n : Nat)
    (h : (s.node n).children = none) : ((disposalPhase s c).node n).children = none := by
  unfold disposalPhase; split
  · apply upd_pres_none Node.children
    · intro nd hnd; exact hnd
    · exact foldl_pres (fun st => (st.node n).children = none) logCleanup
        (fun st b hP => hP) _ _ h
  · exact h

/-- `scopePhase` preserves `children = none` of every node. -/
theorem scopePhase_children_none (s : State) (c n : Nat)
    (h : (s.node n).children = none) : ((scopePhase s c).node n).children = none := by
  unfold scopePhase; split
  · apply upd_pres_none Node.children
    · intro nd hnd; exact hnd
    · apply upd_pres_none Node.children
      · intro nd hnd; simp [hnd]
      · exact h
  · exact h

/-- `childrenPhase` preserves `children = none` of every node, provided
the recursive disposals at its fuel do. -/
theorem childrenPhase_children_none (f : Nat)
    (hrec : ∀ (s : State) (c n : Nat),
      (s.node n).children = none → ((dispose f s c).node n).children = none)
    (s : State) (c n : Nat) (h : (s.node n).children = none) :
    ((childrenPhase f s c).node n).children = none := by
  unfold childrenPhase; split
  · apply foldl_pres (fun st => (st.node n).children = none)
      (fun st c2 => dispose f st c2) (fun st b hP => hrec st b n hP)
    apply upd_pres_none Node.children
    · intro nd hnd; rfl
    · exact h
  · exact h

/-- No engine step ever re-adds a children set that is absent: `dispose`
preserves `children = none` of every node. -/
theorem dispose_children_none (f : Nat) : ∀ (s : State) (c n : Nat),
    (s.node n).children = none → ((dispose f s c).node n).children = none := by
  induction f with
  | zero => intro s c n h; exact h
  | succ f ih =>
    intro s c n h
    rw [dispose_succ]
    apply upd_pres_none Node.children
    · intro nd hnd; exact hnd
    · exact scopePhase_children_none _ c n
        (disposalPhase_children_none _ c n
          (childrenPhase_children_none f ih s c n h))

/-- After `childrenPhase` on an in-range node, that node has no children
set — either it had none, or the set was nulled before the children were
disposed and the recursive disposals keep it absent. -/
theorem childrenPhase_self (f : Nat) (s : State) (nid : Nat)
    (hlen : nid < s.nodes.length) :
    ((childrenPhase f s nid).node nid).children = none := by
  unfold childrenPhase; split
  · apply foldl_pres (fun st => (st.node nid).children = none)
      (fun st c2 => dispose f st c2)
      (fun st b hP => dispose_children_none f st b nid hP)
    rw [node_upd]
    simp [hlen]
  · next hnone => exact hnone

/-- After `disposalPhase` on an in-range node, that node has no disposal
set. -/
theorem disposalPhase_self (s : State) (nid : Nat) (hlen : nid < s.nodes.length) :
    ((disposalPhase s nid).node nid).disposal = none := by
  unfold disposalPhase; split
  · next ds hds =>
    rw [node_upd]
    have hl : nid < (List.foldl logCleanup s ds).nodes.length := by
      rw [foldl_length logCleanup (fun st b => rfl)]; exact hlen
    simp [hl]
  · next hnone => exact hnone

/-- `scopePhase` keeps an absent disposal set absent. -/
theorem scopePhase_disposal_none (s : State) (c n : Nat)
    (h : (s.node n).disposal = none) : ((scopePhase s c).node n).disposal = none := by
  unfold scopePhase; split
  · apply upd_pres_none Node.disposal
    · intro nd hnd; exact hnd
    · apply upd_pres_none Node.disposal
      · intro nd hnd; exact hnd
      · exact h
  · exact h

/-- `childrenPhase` does not change the arena size. -/
theorem childrenPhase_length (f : Nat) (s : State) (c : Nat) :
    (childrenPhase f s c).nodes.length = s.nodes.length := by
  unfold childrenPhase; split
  · rw [foldl_length (fun st c2 => dispose f st c2) (fun st b => dispose_length f st b),
      upd_length]
  · rfl

/-- An element is always a member of the set it was just added to. -/
theorem addUnique_mem {α : Type} [DecidableEq α] (l : List α) (x : α) :
    x ∈ addUnique l x := by
  unfold addUnique; split
  · assumption
  · simp

/-- Moving a `trackObserver` under a known current observer into `upd`
form. -/
theorem trackObserver_eq (s : State) (nid o : Nat) (h : s.currentObserver = some o) :
    trackObserver s nid =
      upd s nid (fun nd => { nd with observers := some (addUnique (nd.observers.getD []) o) }) := by
  unfold trackObserver; rw [h]

/-! ## Claim theorems -/

/-- C1: with `$a = source(10)`, `$b = source(10)` and
`$c = computed(() => $a() + $b())`, the first read `$c()` returns `20`;
after `$a.set(20)` a synchronous read `$c()` returns `30`, with no
scheduler flush or tick having happened (the tick counter is still 0 at
the end). -/
theorem c1_pull_on_read :
    c1FirstRead.1 = Except.ok (Val.int 20) ∧
    c1SecondRead.1 = Except.ok (Val.int 30) ∧
    c1FirstRead.2.ticks = 0 ∧ c1SecondRead.2.ticks = 0 :=
  ⟨rfl, rfl, rfl, rfl⟩

/-- C3: invoking a derivation that is already on the compute stack fails
synchronously with the cyclic-dependency error and returns the state
untouched — in particular no scope error handler runs (the event log and
everything else are unchanged), and the message begins with
`cyclic dependency`. -/
theorem c3_cycle_error (f : Nat) (s : State) (nid : Nat) (b : Body)
    (hk : (s.node nid).kind = NodeKind.comp b) (hmem : nid ∈ s.computeStack) :
    engine (f + 1) s (Call.rn nid) = (Except.error (cyclicMsg s), s) ∧
    (∃ t, cyclicMsg s = "cyclic dependency detected\n\n" ++ t) := by
  refine ⟨?_, ⟨joinArrow (s.callStack.map (fun n => (s.node n).idStr)) ++ "\n", rfl⟩⟩
  have hc : s.computeStack.contains nid = true := List.elem_eq_true_of_mem hmem
  simp only [engine, hk, hc, if_true]

/-- C3 witness: a concrete derivation re-entered while on the compute
stack fails with the cyclic-dependency error. -/
theorem c3_cycle_error_witness :
    engine 6 c3wit (Call.rn 0) = (Except.error (cyclicMsg c3wit), c3wit) ∧
    (∃ t, cyclicMsg c3wit = "cyclic dependency detected\n\n" ++ t) :=
  c3_cycle_error 5 c3wit 0 (Body.fn (Expr.throwE "boom")) rfl (by decide)

/-- C7: the claim as stated is violated by the code — `compute` stores
the previous tracking slots in module-level temporaries, so when the
body itself calls `compute`, the nested call clobbers and then nulls
them, and the outer exit restores `null` rather than the pre-call
values: from an ambient state with `currentScope = some 5` and
`currentObserver = some 6`, after a `compute` whose body runs a nested
`compute`, both slots are `none` instead. -/
theorem c7_nested_compute_bug :
    c7start.currentScope = some 5 ∧ c7start.currentObserver = some 6 ∧
    c7run.2.currentScope = none ∧ c7run.2.currentObserver = none :=
  ⟨rfl, rfl, rfl, rfl⟩

/-- C8: `set` on a disposed source is a silent no-op — it is total (no
error) and returns the state completely unchanged, so the stored value,
every observer's dirty flag and the scheduler queue are all untouched. -/
theorem c8_set_disposed_noop (s : State) (nid : Nat) (nv : Val)
    (h : (s.node nid).disposed = true) : setObservable s nid nv = s := by
  simp [setObservable, h]

/-- C8 witness: writing `9` to a concrete disposed source holding `3`
leaves the state unchanged. -/
theorem c8_set_disposed_noop_witness :
    (c8wit.node 0).disposed = true ∧ setObservable c8wit 0 (Val.int 9) = c8wit :=
  ⟨rfl, c8_set_disposed_noop c8wit 0 (Val.int 9) rfl⟩

/-- C9: the stop function returned by `effect` is a plain closure
carrying no `OBSERVABLE` marker and no `set`, so `isObservable` and
`isSubject` are both false on it. -/
theorem c9_stop_not_reactive (fuel : Nat) (s : State) (e : Expr) (cl : Option Nat)
    (id : String) (eid sid : Nat) (s' : State)
    (h : mkEffect fuel s e cl id = (Except.ok (eid, sid), s')) :
    isObservable s' sid = false ∧ isSubject s' sid = false := by
  simp only [mkEffect] at h
  split at h
  · simp at h
  · simp only [Prod.mk.injEq, Except.ok.injEq] at h
    obtain ⟨⟨he, hs⟩, h2⟩ := h
    subst hs
    subst h2
    simp [isObservable, isSubject, State.node, getD_concat, stopNode]

/-- C9 witness: the stop function of a concrete `effect(() => {})` is
neither an observable nor a subject. -/
theorem c9_stop_not_reactive_witness :
    isObservable c9prog.2 1 = false ∧ isSubject c9prog.2 1 = false :=
  c9_stop_not_reactive 50 emptyState (Expr.lit Val.undef) none "eff" 0 1 c9prog.2 rfl

/-- C10: calling `onDispose(fn)` with no ambient scope registers nothing
— the state is returned unchanged, so no disposal set gains an element
and no later disposal can invoke `fn` through the engine — and the call
still returns the callback itself as a callable handle instead of
failing. -/
theorem c10_onDispose_no_scope (s : State) (c : Nat) (h : s.currentScope = none) :
    onDispose s (some c) = (DisposeHandle.rawFn c, s) := by
  simp [onDispose, h]

/-- C10 witness: `onDispose` at top level on the empty state returns the
callback as the handle and leaves the state unchanged. -/
theorem c10_onDispose_no_scope_witness :
    emptyState.currentScope = none ∧
    onDispose emptyState (some 4) = (DisposeHandle.rawFn 4, emptyState) :=
  ⟨rfl, c10_onDispose_no_scope emptyState 4 rfl⟩

/-! ## C2: lemmas about `notify` and the recompute tail -/

/-- `enqueue` does not touch the arena. -/
theorem enqueue_nodes (s : State) (x : Nat) : (enqueue s x).nodes = s.nodes := by
  unfold enqueue; split <;> rfl

/-- One `notify` step does not change the arena size. -/
theorem notifyStep_length (owner : Nat) (st : State) (o : Nat) :
    (notifyStep owner st o).nodes.length = st.nodes.length := by
  unfold notifyStep; split
  · exact upd_length _ _ _
  · show (enqueue _ o).nodes.length = _
    rw [enqueue_nodes]
    exact upd_length _ _ _

/-- One `notify` step does not change any disposed flag. -/
theorem notifyStep_disposed (owner : Nat) (st : State) (o n : Nat) :
    ((notifyStep owner st o).node n).disposed = (st.node n).disposed := by
  unfold notifyStep; split
  · exact node_upd_field Node.disposed _ _ _ _ (fun nd => rfl)
  · show ((enqueue _ o).node n).disposed = _
    rw [enqueue_node]
    exact node_upd_field Node.disposed _ _ _ _ (fun nd => rfl)

/-- One `notify` step does not change any stored value. -/
theorem notifyStep_value (owner : Nat) (st : State) (o n : Nat) :
    ((notifyStep owner st o).node n).value = (st.node n).value := by
  unfold notifyStep; split
  · exact node_upd_field Node.value _ _ _ _ (fun nd => rfl)
  · show ((enqueue _ o).node n).value = _
    rw [enqueue_node]
    exact node_upd_field Node.value _ _ _ _ (fun nd => rfl)

/-- One `notify` step never clears a dirty flag. -/
theorem notifyStep_dirty_mono (owner : Nat) (st : State) (o n : Nat)
    (h : (st.node n).dirty = true) : ((notifyStep owner st o).node n).dirty = true := by
  unfold notifyStep; split
  · refine (node_upd_field Node.dirty _ _ _ _ ?_).trans h
    intro nd; rfl
  · show ((enqueue _ o).node n).dirty = true
    rw [enqueue_node, node_upd]
    split
    · rfl
    · exact h

/-- One `notify` step never removes a pending entry. -/
theorem notifyStep_pending_mono (owner : Nat) (st : State) (o x : Nat)
    (h : x ∈ st.pending) : x ∈ (notifyStep owner st o).pending := by
  unfold notifyStep; split
  · exact h
  · show x ∈ (enqueue _ o).pending
    unfold enqueue; split
    · exact h
    · exact List.mem_append_left _ h

/-- The `notify` loop marks every non-disposed member of the traversed
observers snapshot dirty and enqueues it. -/
theorem notifyFold_marks (owner : Nat) : ∀ (l : List Nat) (st : State) (o : Nat),
    o ∈ l → (st.node o).disposed = false → o < st.nodes.length →
    ((l.foldl (notifyStep owner) st).node o).dirty = true ∧
    o ∈ (l.foldl (notifyStep owner) st).pending := by
  intro l
  induction l with
  | nil => intro st o h; exact absurd h (List.not_mem_nil o)
  | cons x t ih =>
    intro st o hmem hdisp hlen
    rw [List.foldl_cons]
    rcases List.mem_cons.mp hmem with heq | hmem2
    · subst heq
      have hstep : ((notifyStep owner st o).node o).dirty = true ∧
          o ∈ (notifyStep owner st o).pending := by
        unfold notifyStep
        rw [hdisp]
        constructor
        · show ((enqueue _ o).node o).dirty = true
          rw [enqueue_node, node_upd, if_pos ⟨rfl, hlen⟩]
        · show o ∈ (enqueue _ o).pending
          unfold enqueue; split
          · next hin => exact hin
          · exact List.mem_append_right _ (by simp)
      exact foldl_pres (fun s2 => (s2.node o).dirty = true ∧ o ∈ s2.pending)
        (notifyStep owner)
        (fun s2 b hP => ⟨notifyStep_dirty_mono owner s2 b o hP.1,
          notifyStep_pending_mono owner s2 b o hP.2⟩) t _ hstep
    · have hd2 : ((notifyStep owner st x).node o).disposed = false := by
        rw [notifyStep_disposed]; exact hdisp
      have hl2 : o < (notifyStep owner st x).nodes.length := by
        rw [notifyStep_length]; exact hlen
      exact ih (notifyStep owner st x) o hmem2 hd2 hl2

/-- `notify` does not change any stored value. -/
theorem notify_value (s : State) (owner n : Nat) :
    ((notify s owner).node n).value = (s.node n).value := by
  unfold notify
  exact foldl_pres (fun st => (st.node n).value = (s.node n).value) (notifyStep owner)
    (fun st b hP => (notifyStep_value owner st b n).trans hP) _ _ rfl

/-- `notify` does not change the arena size. -/
theorem notify_length (s : State) (owner : Nat) :
    (notify s owner).nodes.length = s.nodes.length := by
  unfold notify
  exact foldl_length _ (fun st b => notifyStep_length owner st b) _ _

/-- `trackObserver` with no current observer is the identity. -/
theorem trackObserver_none (s : State) (nid : Nat) (h : s.currentObserver = none) :
    trackObserver s nid = s := by
  unfold trackObserver; rw [h]

/-- `trackObserver` leaves every node projection other than the
observers set alone. -/
theorem trackObserver_keeps {α : Type} (p : Node → α)
    (hp : ∀ nd ol, p { nd with observers := ol } = p nd) (s : State) (nid n : Nat) :
    p ((trackObserver s nid).node n) = p (s.node n) := by
  cases h : s.currentObserver with
  | none => rw [trackObserver_none s nid h]
  | some o =>
    rw [trackObserver_eq s nid o h]
    exact node_upd_field p _ _ _ _ (fun nd => hp nd _)

/-- Reading a dirty, non-disposed derivation that is not on the compute
stack re-runs its body under `compute(self, fn, self)` after the
`prepComputed` housekeeping, finishing through `finishCompute` on
success and `failCompute` on a throw. -/
theorem engine_comp_run (f : Nat) (s : State) (nid : Nat) (b : Body)
    (hk : (s.node nid).kind = NodeKind.comp b)
    (hcs : nid ∉ s.computeStack)
    (hd : (s.node nid).dirty = true)
    (hnd : (s.node nid).disposed = false) :
    engine (f + 1) s (Call.rn nid) =
      (match engine f (computeEnter (prepComputed f (trackObserver (pushCall s nid) nid) nid)
          (some nid) (some nid)) (Call.rb b) with
       | (Except.ok nv, s2) => finishCompute s2 nid nv
       | (Except.error er, s2) => failCompute f s2 nid er) := by
  have hc : s.computeStack.contains nid = false := by simpa using hcs
  have hd1 : ((trackObserver (pushCall s nid) nid).node nid).dirty = true :=
    (trackObserver_keeps Node.dirty (fun nd ol => rfl) (pushCall s nid) nid nid).trans hd
  have hnd1 : ((trackObserver (pushCall s nid) nid).node nid).disposed = false :=
    (trackObserver_keeps Node.disposed (fun nd ol => rfl) (pushCall s nid) nid nid).trans hnd
  simp only [engine, hk, hc, hd1, hnd1, Bool.false_eq_true, if_false, Bool.true_and,
    Bool.not_false, if_true]

/-- The recompute tail when the dirty predicate reports a change. -/
theorem finishCompute_pred_true (s2 : State) (nid : Nat) (nv : Val)
    (hp : ((computeExit s2).node nid).dirtyPred ((computeExit s2).node nid).value nv = true) :
    finishCompute s2 nid nv =
      (let s4a := upd (computeExit s2) nid (fun n => { n with value := nv })
       let s4 := if ((s4a.node nid).observers.getD []).isEmpty then s4a else notify s4a nid
       let s5 := upd s4 nid (fun n => { n with isInit := true, dirty := false })
       (Except.ok (s5.node nid).value, s5)) := by
  simp only [finishCompute, hp, if_true]

/-- The recompute tail when the dirty predicate reports no change. -/
theorem finishCompute_pred_false (s2 : State) (nid : Nat) (nv : Val)
    (hp : ((computeExit s2).node nid).dirtyPred ((computeExit s2).node nid).value nv = false) :
    finishCompute s2 nid nv =
      (let s5 := upd (computeExit s2) nid (fun n => { n with isInit := true, dirty := false })
       (Except.ok (s5.node nid).value, s5)) := by
  simp only [finishCompute, hp, Bool.false_eq_true, if_false]

/-- Storing a value on an in-range node stores it. -/
theorem upd_store_value (st : State) (nid : Nat) (hlen : nid < st.nodes.length) (nv : Val) :
    ((upd st nid (fun n => { n with value := nv })).node nid).value = nv := by
  rw [node_upd, if_pos ⟨rfl, hlen⟩]

/-- Storing a value does not touch any observers set. -/
theorem upd_store_observers (st : State) (nid n : Nat) (nv : Val) :
    ((upd st nid (fun nd => { nd with value := nv })).node n).observers =
      (st.node n).observers := by
  refine node_upd_field Node.observers _ _ _ _ ?_
  intro nd; rfl

/-- Storing a value does not touch any disposed flag. -/
theorem upd_store_disposed (st : State) (nid n : Nat) (nv : Val) :
    ((upd st nid (fun nd => { nd with value := nv })).node n).disposed =
      (st.node n).disposed := by
  refine node_upd_field Node.disposed _ _ _ _ ?_
  intro nd; rfl

/-- Clearing the dirty flag of an in-range node clears it. -/
theorem upd_clean_dirty (st : State) (nid : Nat) (hlen : nid < st.nodes.length) :
    ((upd st nid (fun n => { n with isInit := true, dirty := false })).node nid).dirty
      = false := by
  rw [node_upd, if_pos ⟨rfl, hlen⟩]

/-- The init/dirty bookkeeping does not touch any stored value. -/
theorem upd_clean_value (st : State) (nid n : Nat) :
    ((upd st nid (fun nd => { nd with isInit := true, dirty := false })).node n).value =
      (st.node n).value := by
  refine node_upd_field Node.value _ _ _ _ ?_
  intro nd; rfl

/-- The init/dirty bookkeeping of one node does not touch any other
node's dirty flag. -/
theorem upd_clean_dirty_other (st : State) (nid o : Nat) (hne : nid ≠ o) :
    ((upd st nid (fun nd => { nd with isInit := true, dirty := false })).node o).dirty =
      (st.node o).dirty := by
  rw [node_upd, if_neg (fun hc => hne hc.1)]

/-- C2: when a dirty derivation recomputes and its body run succeeds
with value `nv`, the new value is compared with the old one via the
derivation's dirty predicate.  If it reports a change, `nv` is stored
and every (in-range, non-disposed) member of the derivation's current
observers set is marked dirty and enqueued; if it reports no change, the
stored value stays and the scheduler queue is untouched.  In both cases
the derivation's own dirty flag is cleared, and the read returns the
(possibly updated) current value. -/
theorem c2_recompute (f : Nat) (s : State) (nid : Nat) (b : Body) (nv : Val) (s2 : State)
    (hk : (s.node nid).kind = NodeKind.comp b)
    (hd : (s.node nid).dirty = true)
    (hnd : (s.node nid).disposed = false)
    (hcs : nid ∉ s.computeStack)
    (hrun : engine f (computeEnter (prepComputed f (trackObserver (pushCall s nid) nid) nid)
        (some nid) (some nid)) (Call.rb b) = (Except.ok nv, s2))
    (hlen : nid < s2.nodes.length)
    (hself : nid ∉ ((computeExit s2).node nid).observers.getD []) :
    (((computeExit s2).node nid).dirtyPred ((computeExit s2).node nid).value nv = true →
      ((engine (f + 1) s (Call.rn nid)).2.node nid).value = nv ∧
      (∀ o, o ∈ ((computeExit s2).node nid).observers.getD [] →
        ((computeExit s2).node o).disposed = false → o < s2.nodes.length →
        ((engine (f + 1) s (Call.rn nid)).2.node o).dirty = true ∧
        o ∈ (engine (f + 1) s (Call.rn nid)).2.pending)) ∧
    (((computeExit s2).node nid).dirtyPred ((computeExit s2).node nid).value nv = false →
      ((engine (f + 1) s (Call.rn nid)).2.node nid).value = ((computeExit s2).node nid).value ∧
      (engine (f + 1) s (Call.rn nid)).2.pending = (computeExit s2).pending) ∧
    ((engine (f + 1) s (Call.rn nid)).2.node nid).dirty = false ∧
    (engine (f + 1) s (Call.rn nid)).1 =
      Except.ok ((engine (f + 1) s (Call.rn nid)).2.node nid).value := by
  have hrw : engine (f + 1) s (Call.rn nid) = finishCompute s2 nid nv := by
    rw [engine_comp_run f s nid b hk hcs hd hnd, hrun]
  have hlen3 : nid < (computeExit s2).nodes.length := hlen
  refine ⟨?_, ?_, ?_, ?_⟩
  · -- predicate reports a change
    intro hp
    rw [hrw, finishCompute_pred_true s2 nid nv hp]
    constructor
    · -- the new value is stored
      refine (upd_clean_value _ nid nid).trans ?_
      split
      · exact upd_store_value _ nid hlen3 nv
      · exact (notify_value _ nid nid).trans (upd_store_value _ nid hlen3 nv)
    · -- every live observer is marked dirty and enqueued
      intro o ho hod holen
      have hne : nid ≠ o := fun he => hself (he ▸ ho)
      have hobs : ((upd (computeExit s2) nid (fun n => { n with value := nv })).node
          nid).observers = ((computeExit s2).node nid).observers :=
        upd_store_observers _ nid nid nv
      have ho4 : o ∈ ((upd (computeExit s2) nid (fun n => { n with value := nv })).node
          nid).observers.getD [] := by rw [hobs]; exact ho
      have hod4 : ((upd (computeExit s2) nid (fun n => { n with value := nv })).node
          o).disposed = false := (upd_store_disposed _ nid o nv).trans hod
      have holen4 : o < (upd (computeExit s2) nid
          (fun n => { n with value := nv })).nodes.length := by
        rw [upd_length]; exact holen
      dsimp only
      split
      · next hie =>
        exfalso
        rw [hobs, List.isEmpty_iff] at hie
        rw [hie] at ho
        exact List.not_mem_nil o ho
      · have hmarks := notifyFold_marks nid _ _ o ho4 hod4 holen4
        exact ⟨(upd_clean_dirty_other _ nid o hne).trans hmarks.1, hmarks.2⟩
  · -- predicate reports no change
    intro hp
    rw [hrw, finishCompute_pred_false s2 nid nv hp]
    exact ⟨upd_clean_value _ nid nid, rfl⟩
  · -- the dirty flag is cleared
    rw [hrw]
    cases hp : ((computeExit s2).node nid).dirtyPred ((computeExit s2).node nid).value nv with
    | true =>
      rw [finishCompute_pred_true s2 nid nv hp]
      refine upd_clean_dirty _ nid ?_
      split
      · rw [upd_length]; exact hlen3
      · rw [notify_length, upd_length]; exact hlen3
    | false =>
      rw [finishCompute_pred_false s2 nid nv hp]
      exact upd_clean_dirty _ nid hlen3
  · -- the read returns the current value
    rw [hrw]
    rfl

/-- C2 witness: a concrete dirty derivation whose body yields `7` (old
value `undefined`, so the default predicate reports a change): the value
is stored, its observer is marked dirty and enqueued, and its own dirty
flag is cleared. -/
theorem c2_recompute_witness :
    ((engine (5 + 1) c2wit (Call.rn 0)).2.node 0).dirty = false ∧
    ((engine (5 + 1) c2wit (Call.rn 0)).2.node 1).dirty = true ∧
    1 ∈ (engine (5 + 1) c2wit (Call.rn 0)).2.pending ∧
    ((engine (5 + 1) c2wit (Call.rn 0)).2.node 0).value = Val.int 7 := by
  have h := c2_recompute 5 c2wit 0 (Body.fn (Expr.lit (Val.int 7))) (Val.int 7)
    ((engine 5 (computeEnter (prepComputed 5 (trackObserver (pushCall c2wit 0) 0) 0)
      (some 0) (some 0)) (Call.rb (Body.fn (Expr.lit (Val.int 7))))).2)
    rfl rfl rfl (by decide) rfl (by decide) (by decide)
  obtain ⟨h1, h2, h3, h4⟩ := h
  have hp := h1 (by decide)
  have hm := hp.2 1 (by decide) (by decide) (by decide)
  exact ⟨h3, hm.1, hm.2, hp.1⟩

/-! ## C4: the error-handler chain -/

/-- `lookup(node, ERROR)` is exactly: walk the scope chain, take the
first scope with a defined `ERROR` entry, and return that entry. -/
theorem lookupErr_chain (f : Nat) : ∀ (s : State) (onode : Option Nat),
    lookupErr f s onode =
      ((scopeChain f s onode).find? (fun p => (s.node p).errHandlers.isSome)).bind
        (fun p => (s.node p).errHandlers) := by
  induction f with
  | zero => intro s onode; cases onode <;> rfl
  | succ f ih =>
    intro s onode
    cases onode with
    | none => rfl
    | some n =>
      rw [show scopeChain (f + 1) s (some n) = n :: scopeChain f s (s.node n).scope from rfl]
      cases hh : (s.node n).errHandlers with
      | some hs =>
        rw [List.find?_cons_of_pos _ (by simp [hh])]
        simp [lookupErr, hh]
      | none =>
        rw [List.find?_cons_of_neg _ (by simp [hh])]
        rw [show lookupErr (f + 1) s (some n) = lookupErr f s (s.node n).scope from by
          simp [lookupErr, hh]]
        exact ih s _

/-- Running a handler set none of whose members throws invokes every
handler once, in order, with the given error. -/
theorem runHandlers_noThrow : ∀ (hs : List Handler) (s : State) (msg : String),
    (∀ h ∈ hs, h.throwsMsg = none) →
    runHandlers s hs msg =
      (none, { s with events := s.events ++ hs.map (fun h => Event.handler h.hid msg) }) := by
  intro hs
  induction hs with
  | nil =>
    intro s msg _
    show (none, s) = _
    simp
  | cons h t ih =>
    intro s msg hall
    have hh : h.throwsMsg = none := hall h (List.mem_cons_self h t)
    rw [show runHandlers s (h :: t) msg = runHandlers (logHandler s h.hid msg) t msg from by
      simp [runHandlers, hh]]
    rw [ih (logHandler s h.hid msg) msg (fun h2 hm => hall h2 (List.mem_cons_of_mem h hm))]
    simp [logHandler]

/-- Running a handler set whose first throwing member is `h` invokes the
earlier handlers and `h` once each (later handlers are skipped) and
rethrows `h`'s error. -/
theorem runHandlers_throw : ∀ (pre : List Handler) (s : State) (h : Handler)
    (post : List Handler) (msg m : String),
    (∀ h2 ∈ pre, h2.throwsMsg = none) → h.throwsMsg = some m →
    runHandlers s (pre ++ h :: post) msg =
      (some m, { s with events := s.events ++
        (pre.map (fun h2 => Event.handler h2.hid msg) ++ [Event.handler h.hid msg]) }) := by
  intro pre
  induction pre with
  | nil =>
    intro s h post msg m _ hm
    simp [runHandlers, hm, logHandler]
  | cons h0 t ih =>
    intro s h post msg m hall hm
    have hh0 : h0.throwsMsg = none := hall h0 (List.mem_cons_self h0 t)
    rw [show runHandlers s ((h0 :: t) ++ h :: post) msg =
        runHandlers (logHandler s h0.hid msg) (t ++ h :: post) msg from by
      simp [runHandlers, hh0]]
    rw [ih _ h post msg m (fun h2 hm2 => hall h2 (List.mem_cons_of_mem h0 hm2)) hm]
    simp [logHandler]

/-- C4 (amended): when a derivation's body throws, the engine walks the
scope chain from the throwing node; with no `ERROR` entry anywhere in
the chain, the error is rethrown to the caller; otherwise the first
scope in the chain with an entry has its handlers invoked in order with
the (coerced) error, stopping at the first handler that throws.  If a
handler throws, handling continues from the scope parent of the node the
current search started at — not from the parent of the handling scope —
so the same handler set can be invoked again for the follow-up error. -/
theorem c4_error_chain (f : Nat) (s : State) (onode : Option Nat) (e : String) :
    ((∀ p ∈ scopeChain (f + 1) s onode, (s.node p).errHandlers = none) →
      handleError (f + 1) s onode e = (some e, s)) ∧
    (∀ p hs,
      (scopeChain (f + 1) s onode).find? (fun q => (s.node q).errHandlers.isSome) = some p →
      (s.node p).errHandlers = some hs →
      ((∀ h ∈ hs, h.throwsMsg = none) →
        handleError (f + 1) s onode e =
          (none, { s with events := s.events ++ hs.map (fun h => Event.handler h.hid e) })) ∧
      (∀ pre h post m, hs = pre ++ h :: post → (∀ h2 ∈ pre, h2.throwsMsg = none) →
        h.throwsMsg = some m →
        handleError (f + 1) s onode e =
          handleError f
            { s with events := s.events ++
              (pre.map (fun h2 => Event.handler h2.hid e) ++ [Event.handler h.hid e]) }
            (onode.bind (fun nn => (s.node nn).scope)) m)) := by
  constructor
  · intro hall
    have hlk : lookupErr (f + 1) s onode = none := by
      rw [lookupErr_chain]
      rw [List.find?_eq_none.mpr (fun p hp => by simp [hall p hp])]
      rfl
    simp [handleError, hlk]
  · intro p hs hfind hhs
    have hlk : lookupErr (f + 1) s onode = some hs := by
      rw [lookupErr_chain, hfind]
      simp [hhs]
    cases onode with
    | none =>
      simp [lookupErr] at hlk
    | some n =>
      constructor
      · intro hnall
        rw [show handleError (f + 1) s (some n) e =
            (match runHandlers s hs e with
             | (none, s1) => (none, s1)
             | (some m2, s1) => handleError f s1 (s1.node n).scope m2) from by
          simp [handleError, hlk]]
        rw [runHandlers_noThrow hs s e hnall]
      · intro pre h post m hsplit hpre hm
        rw [show handleError (f + 1) s (some n) e =
            (match runHandlers s hs e with
             | (none, s1) => (none, s1)
             | (some m2, s1) => handleError f s1 (s1.node n).scope m2) from by
          simp [handleError, hlk]]
        rw [hsplit, runHandlers_throw pre s h post e m hpre hm]
        rfl

/-- C4 amended-claim witness: with no handler anywhere in the chain, a
concrete error is rethrown unchanged to the caller. -/
theorem c4_error_chain_witness :
    handleError 3 c4wit (some 0) "boom" = (some "boom", c4wit) :=
  (c4_error_chain 2 c4wit (some 0) "boom").1 (by decide)

/-- C4 counterexample: the claim predicts that after the handlers of the
handling scope throw, the search continues from the parent of that scope
— here the handling scope `p` is a root, so its single handler (id 7)
would run exactly once and the follow-up error would be rethrown.  The
code instead continues from the parent of the throwing node, which is
`p` itself, so handler 7 runs a second time with the follow-up error. -/
theorem c4_counterexample :
    c4run.2.events = [Event.handler 7 "boom", Event.handler 7 "handler-boom"] ∧
    c4run.1 = Except.error "handler-boom" :=
  ⟨rfl, rfl⟩

/-! ## C6: effect cleanup accounting -/

/-- The setup run (create `$a`, prime the effect) lands exactly in the
closed form with no events, the priming call-stack trail, and tick 0. -/
theorem c6_base : c6s0 = mkC6 [] [2, 1] 0 := rfl

set_option maxHeartbeats 1000000 in
/-- `$a.set(...)` from the closed form: the write marks the effect dirty
and enqueues it; nothing else changes. -/
theorem c6_write (ev : List Event) (cs : List Nat) (t : Nat) :
    setObservable (mkC6 ev cs t) 1 (Val.int 1) = c6mid ev cs t := rfl

set_option maxHeartbeats 1000000 in
/-- `tick()` after the write: the flush re-runs the effect, which runs
the buffered cleanup exactly once and re-registers it on the effect
node, leaving the state in closed form again (tick incremented, call
stack cleared by the post-flush hook). -/
theorem c6_flush_step (ev : List Event) (cs : List Nat) (t : Nat) :
    flush 10 (c6mid ev cs t) =
      (none, mkC6 (ev ++ [Event.cleanup 99]) [] (t + 1)) := rfl

/-- One full `$a.set(...); tick()` round from the closed form. -/
theorem c6_step (ev : List Event) (cs : List Nat) (t : Nat) :
    flush 10 (setObservable (mkC6 ev cs t) 1 (Val.int 1)) =
      (none, mkC6 (ev ++ [Event.cleanup 99]) [] (t + 1)) := by
  rw [c6_write, c6_flush_step]

set_option maxHeartbeats 1000000 in
/-- Invoking the stop function from the closed form runs the registered
cleanup once more (via `dispose` of the effect node). -/
theorem c6_stop_events (ev : List Event) (cs : List Nat) (t : Nat) :
    ((engine 10 (mkC6 ev cs t) (Call.rn 3)).2).events = ev ++ [Event.cleanup 99] := rfl

/-- Appending one more copy to a replicated list. -/
theorem replicate_concat (n : Nat) (e : Event) :
    List.replicate n e ++ [e] = List.replicate (n + 1) e := by
  induction n with
  | zero => rfl
  | succ k ih => simp [List.replicate_succ, ih]

/-- After `k` write/flush rounds the state is exactly the closed form:
`k` cleanup invocations logged, tick counter `k`. -/
theorem c6_closed (k : Nat) :
    c6iter k = mkC6 (List.replicate k (Event.cleanup 99)) (c6cs k) k := by
  induction k with
  | zero => exact c6_base
  | succ k ih =>
    show (flush 10 (setObservable (c6iter k) 1 (Val.int 1))).2 = _
    rw [ih, c6_step]
    show mkC6 (List.replicate k (Event.cleanup 99) ++ [Event.cleanup 99]) [] (k + 1) = _
    rw [replicate_concat]
    rfl

/-- Counting cleanup events in a replicated log. -/
theorem countCleanup_replicate (n : Nat) :
    countCleanup (List.replicate n (Event.cleanup 99)) 99 = n := by
  induction n with
  | zero => rfl
  | succ k ih =>
    simp only [countCleanup] at ih ⊢
    simp [List.replicate_succ, List.countP_cons, ih]

/-- C6: in the scenario `stop = effect(() => { $a(); return cleanup; })`
created under a root scope, after `n` effect re-runs (each triggered by
a source write followed by a flush) the cleanup has run `n` times; after
`stop()` it has run exactly `n + 1` times.  Throughout, the cleanup is
registered in the effect node's own disposal set (`some [99]`) while the
outer root scope's disposal set stays empty — the cleanup lives on the
effect itself, not on an outer scope. -/
theorem c6_effect_cleanup (n : Nat) :
    countCleanup (c6stop n).events 99 = n + 1 ∧
    countCleanup (c6iter n).events 99 = n ∧
    ((c6iter n).node 2).disposal = some [99] ∧
    ((c6iter n).node 0).disposal = none := by
  have hcl := c6_closed n
  refine ⟨?_, ?_, ?_, ?_⟩
  · show countCleanup ((engine 10 (c6iter n) (Call.rn 3)).2).events 99 = n + 1
    rw [hcl, c6_stop_events, replicate_concat, countCleanup_replicate]
  · rw [hcl]
    exact countCleanup_replicate n
  · rw [hcl]
    rfl
  · rw [hcl]
    rfl

/-- C5 (amended): immediately after `dispose(x)` returns, `x`'s
observers, children and disposal sets are all absent and the disposed
flag is set — but they are not guaranteed to stay that way: a read of
the disposed node inside a tracked execution re-adds the current
observer to its observers set (the read path of `part_000` performs no
disposed check). -/
theorem c5_disposed_sets_amended :
    (∀ (f : Nat) (s : State) (nid : Nat), nid < s.nodes.length →
      ((dispose (f + 1) s nid).node nid).observers = none ∧
      ((dispose (f + 1) s nid).node nid).children = none ∧
      ((dispose (f + 1) s nid).node nid).disposal = none ∧
      ((dispose (f + 1) s nid).node nid).disposed = true) ∧
    (∀ (f : Nat) (s : State) (nid o : Nat),
      (s.node nid).kind = NodeKind.src → (s.node nid).disposed = true →
      s.currentObserver = some o → nid < s.nodes.length →
      ((engine (f + 1) s (Call.rn nid)).2.node nid).observers =
        some (addUnique ((s.node nid).observers.getD []) o) ∧
      o ∈ ((engine (f + 1) s (Call.rn nid)).2.node nid).observers.getD []) := by
  constructor
  · intro f s nid hlen
    rw [dispose_succ]
    have hlen3 : nid < (scopePhase (disposalPhase (childrenPhase f s nid) nid) nid).nodes.length := by
      rw [scopePhase_length, disposalPhase_length, childrenPhase_length]
      exact hlen
    have hlen1 : nid < (childrenPhase f s nid).nodes.length := by
      rw [childrenPhase_length]; exact hlen
    refine ⟨?_, ?_, ?_, ?_⟩
    · rw [node_upd, if_pos ⟨rfl, hlen3⟩]
    · rw [node_upd, if_pos ⟨rfl, hlen3⟩]
      exact scopePhase_children_none _ nid nid
        (disposalPhase_children_none _ nid nid (childrenPhase_self f s nid hlen))
    · rw [node_upd, if_pos ⟨rfl, hlen3⟩]
      exact scopePhase_disposal_none _ nid nid
        (disposalPhase_self (childrenPhase f s nid) nid hlen1)
    · rw [node_upd, if_pos ⟨rfl, hlen3⟩]
  · intro f s nid o hk hd hobs hlen
    have hrw : engine (f + 1) s (Call.rn nid) =
        (Except.ok (s.node nid).value, trackObserver (pushCall s nid) nid) := by
      simp only [engine, hk]
    have h1 : ((trackObserver (pushCall s nid) nid).node nid).observers =
        some (addUnique ((s.node nid).observers.getD []) o) := by
      rw [trackObserver_eq (pushCall s nid) nid o hobs, node_upd, if_pos ⟨rfl, hlen⟩]
      rfl
    rw [hrw]
    refine ⟨h1, ?_⟩
    rw [h1]
    exact addUnique_mem _ _

/-- C5 amended-claim witness: the postcondition of a concrete dispose,
and the concrete repopulation of a disposed source's observers by a
tracked read. -/
theorem c5_disposed_sets_amended_witness :
    (((dispose (3 + 1) c8wit 0).node 0).observers = none ∧
     ((dispose (3 + 1) c8wit 0).node 0).children = none ∧
     ((dispose (3 + 1) c8wit 0).node 0).disposal = none ∧
     ((dispose (3 + 1) c8wit 0).node 0).disposed = true) ∧
    (((engine (3 + 1) c5wit (Call.rn 0)).2.node 0).observers =
       some (addUnique ((c5wit.node 0).observers.getD []) 1) ∧
     1 ∈ ((engine (3 + 1) c5wit (Call.rn 0)).2.node 0).observers.getD []) :=
  ⟨c5_disposed_sets_amended.1 3 c8wit 0 (by decide),
   c5_disposed_sets_amended.2 3 c5wit 0 1 rfl rfl rfl (by decide)⟩

/-- C5 counterexample: after `dispose($a)` the observers set of `$a` is
empty (`none`), but a subsequent read of `$a` inside the tracked
execution of `$c = computed(() => $a())` re-adds the current observer,
so the set is repopulated — the claim's "never adds an element to any of
those sets again" is false. -/
theorem c5_counterexample :
    (c5Disposed.node 0).disposed = true ∧
    (c5Disposed.node 0).observers = none ∧
    (c5Read.2.node 0).observers = some [1] :=
  ⟨rfl, rfl, rfl⟩

end Signals
